import Mathlib

/-!
Verification of the two shader demos in this repository: the "sun" sphere
with animated sine-wave surface displacement (src/src/script.js) and the
rotating four-face shader pyramid (src/unnamed/part_000).

The GLSL shader arithmetic and the per-frame mutable state are embedded
shallowly over the real numbers: each shader body becomes a Lean function
of its uniforms and vertex attributes, and the render loop / resize handler
become explicit state-transition functions.  Statement order inside a tick
is modelled as a list of events transcribed from the source.
-/

namespace Demo

/-- GLSL vec3 of real components. -/
structure Vec3 where
  x : ℝ
  y : ℝ
  z : ℝ

/-- GLSL RGB color of real components. -/
structure Color where
  r : ℝ
  g : ℝ
  b : ℝ

/-- GLSL mod(x, y) = x - y * floor(x / y). -/
noncomputable def glslMod (x y : ℝ) : ℝ := x - y * ⌊x / y⌋

end Demo

namespace Sun

open Demo

/--
The scalar uniforms of the sun shader material
(src/src/script.js, lines 76-85; the two color uniforms are omitted
because no claim depends on them).
-/
structure Uniforms where
  uTime : ℝ
  uWaveSpeed : ℝ
  uSmallWaveFrequency : ℝ
  uSmallWaveSpeed : ℝ
  uWaveHeight : ℝ
  uColorMultiplier : ℝ

/--
The initial uniform values of the sun material
(src/src/script.js, lines 77-82): uTime = 0.0, uWaveSpeed = 1.0,
uSmallWaveFrequency = 10.0, uSmallWaveSpeed = 2.0, uWaveHeight = 0.15,
uColorMultiplier = 1.0.
-/
noncomputable def defaultUniforms : Uniforms :=
  { uTime := 0
    uWaveSpeed := 1
    uSmallWaveFrequency := 10
    uSmallWaveSpeed := 2
    uWaveHeight := 0.15
    uColorMultiplier := 1 }

/--
Line 36 of src/src/script.js:
float wave = sin(position.x * 10.0 + uTime * uWaveSpeed) * 0.05.
-/
noncomputable def wave (u : Uniforms) (position : Vec3) : ℝ :=
  Real.sin (position.x * 10.0 + u.uTime * u.uWaveSpeed) * 0.05

/--
Line 37 of src/src/script.js:
float smallWave = sin(position.y * uSmallWaveFrequency + uTime * uSmallWaveSpeed) * 0.03.
-/
noncomputable def smallWave (u : Uniforms) (position : Vec3) : ℝ :=
  Real.sin (position.y * u.uSmallWaveFrequency + u.uTime * u.uSmallWaveSpeed) * 0.03

/--
Lines 38-39 of src/src/script.js:
float displacement = wave + smallWave; displacement *= uWaveHeight.
-/
noncomputable def displacement (u : Uniforms) (position : Vec3) : ℝ :=
  (wave u position + smallWave u position) * u.uWaveHeight

/--
Line 42 of src/src/script.js:
vec3 newPosition = position + normal * displacement.
-/
noncomputable def newPosition (u : Uniforms) (position normal : Vec3) : Vec3 :=
  { x := position.x + normal.x * displacement u position
    y := position.y + normal.y * displacement u position
    z := position.z + normal.z * displacement u position }

end Sun

namespace Pyramid

open Demo

/--
Line 64 of src/unnamed/part_000 (fragmentShader2):
float checker = mod(floor(vUv.x * 10.0) + floor(vUv.y * 10.0), 2.0).
-/
noncomputable def checker (u v : ℝ) : ℝ :=
  glslMod (((⌊u * 10.0⌋ : ℤ) : ℝ) + ((⌊v * 10.0⌋ : ℤ) : ℝ)) 2.0

/--
Line 82 of src/unnamed/part_000 (fragmentShader3):
float dist = length(vUv - vec2(0.5, 0.5)).
-/
noncomputable def dist (u v : ℝ) : ℝ :=
  Real.sqrt ((u - 0.5) ^ 2 + (v - 0.5) ^ 2)

/--
Line 83 of src/unnamed/part_000 (fragmentShader3):
vec3 color = vec3(1.0 - dist, dist, 0.0).
-/
noncomputable def color3 (u v : ℝ) : Color :=
  { r := 1.0 - dist u v, g := dist u v, b := 0.0 }

/--
The vertex shader of the radial-gradient face (vertexShader3, lines 71-77
of src/unnamed/part_000) passes the vertex position through unchanged:
gl_Position is computed from the raw attribute position.
-/
def newPosition3 (position : Vec3) : Vec3 := position

/--
The per-frame mutable state of the pyramid demo touched by its tick
function: the uTime uniforms of materials[0] and materials[3]
(lines 119 and 150 of src/unnamed/part_000) and pyramid.rotation.y.
-/
structure State where
  uTime0 : ℝ
  uTime3 : ℝ
  rotationY : ℝ

/--
The initial pyramid-demo state: both uTime uniforms are created with
value 0.0 (lines 119 and 150 of src/unnamed/part_000) and the mesh
rotation starts at 0.
-/
noncomputable def initState : State :=
  { uTime0 := 0, uTime3 := 0, rotationY := 0 }

/--
The state effect of one tick of the pyramid render loop
(lines 204-210 of src/unnamed/part_000):
materials[0].uniforms.uTime.value += 0.01;
materials[3].uniforms.uTime.value += 0.01;
pyramid.rotation.y += 0.01.
-/
noncomputable def tick (s : State) : State :=
  { uTime0 := s.uTime0 + 0.01
    uTime3 := s.uTime3 + 0.01
    rotationY := s.rotationY + 0.01 }

/-- The pyramid-demo state after n ticks from startup. -/
noncomputable def afterTicks (n : ℕ) : State := tick^[n] initState

end Pyramid

namespace Loop

/-- The observable actions a render-loop tick performs, in either demo. -/
inductive Event where
  | readElapsedTime
  | updateSunTimeUniform
  | updateUniform0
  | updateUniform3
  | rotationIncrement
  | controlsUpdate
  | render
  | scheduleNextFrame
deriving DecidableEq

/--
The statement order of the sun demo tick (src/src/script.js,
lines 155-169): read clock.getElapsedTime, set uTime, controls.update,
renderer.render, requestAnimationFrame.
-/
def sunTickTrace : List Event :=
  [Event.readElapsedTime, Event.updateSunTimeUniform, Event.controlsUpdate,
   Event.render, Event.scheduleNextFrame]

/--
The statement order of the pyramid demo tick (src/unnamed/part_000,
lines 204-219): increment both uTime uniforms, increment
pyramid.rotation.y, controls.update, renderer.render,
requestAnimationFrame.
-/
def pyramidTickTrace : List Event :=
  [Event.updateUniform0, Event.updateUniform3, Event.rotationIncrement,
   Event.controlsUpdate, Event.render, Event.scheduleNextFrame]

end Loop

namespace Resize

/-- The camera state touched by the resize handler. -/
structure CameraState where
  fov : ℝ
  aspect : ℝ
  near : ℝ
  far : ℝ

/-- The renderer state touched by the resize handler. -/
structure RendererState where
  width : ℝ
  height : ℝ
  pixelRatio : ℝ

/-- The view state the resize handler reads and writes. -/
structure ViewState where
  camera : CameraState
  renderer : RendererState

/--
The resize listener, identical in both demos (src/src/script.js lines
104-116 and src/unnamed/part_000 lines 172-181): sizes are set to the new
window dimensions, camera.aspect = sizes.width / sizes.height, renderer is
set to (sizes.width, sizes.height) and pixel ratio
min(devicePixelRatio, 2).
-/
noncomputable def onResize (innerWidth innerHeight devicePixelRatio : ℝ)
    (s : ViewState) : ViewState :=
  { camera := { s.camera with aspect := innerWidth / innerHeight }
    renderer :=
      { width := innerWidth
        height := innerHeight
        pixelRatio := min devicePixelRatio 2 } }

end Resize

namespace Demo

/-- GLSL mod of an integer by 2 is the integer remainder mod 2. -/
theorem glslMod_intCast_two (n : ℤ) :
    glslMod ((n : ℝ)) 2.0 = ((n % 2 : ℤ) : ℝ) := by
  unfold glslMod
  rcases Int.even_or_odd n with ⟨k, hk⟩ | ⟨k, hk⟩
  · have hf : ((n : ℝ)) / 2.0 = ((k : ℤ) : ℝ) := by rw [hk]; push_cast; ring
    have hm : n % 2 = 0 := by omega
    rw [hf, Int.floor_intCast, hm, hk]
    push_cast
    ring
  · have hf : ((n : ℝ)) / 2.0 = ((k : ℤ) : ℝ) + 1 / 2 := by rw [hk]; push_cast; ring
    have hhalf : ⌊(1 / 2 : ℝ)⌋ = 0 := by
      rw [Int.floor_eq_zero_iff, Set.mem_Ico]
      constructor <;> norm_num
    have hm : n % 2 = 1 := by omega
    rw [hf, Int.floor_int_add, hhalf, hm, hk]
    push_cast
    ring

end Demo

namespace Pyramid

/-- The checker value is the parity of the sum of the two floors. -/
theorem checker_eq (u v : ℝ) :
    checker u v = (((⌊u * 10.0⌋ + ⌊v * 10.0⌋) % 2 : ℤ) : ℝ) := by
  unfold checker
  rw [← Int.cast_add, Demo.glslMod_intCast_two]

/-- Closed form of the pyramid-demo state after n ticks. -/
theorem afterTicks_eq (n : ℕ) :
    afterTicks n = { uTime0 := n * 0.01, uTime3 := n * 0.01, rotationY := n * 0.01 } := by
  induction n with
  | zero => simp [afterTicks, initState]
  | succ n ih =>
    unfold afterTicks at ih ⊢
    rw [Function.iterate_succ_apply', ih]
    simp only [tick, State.mk.injEq]
    push_cast
    refine ⟨by ring, by ring, by ring⟩

end Pyramid

/--
C3: for every vertex position, normal, and uniform values, the sun vertex
shader outputs position plus normal times displacement, where
displacement = uWaveHeight * (sin(x*10 + t*uWaveSpeed)*0.05 +
sin(y*uSmallWaveFrequency + t*uSmallWaveSpeed)*0.03).
-/
theorem sun_vertex_output_formula (u : Sun.Uniforms) (position normal : Demo.Vec3) :
    Sun.newPosition u position normal =
      { x := position.x + normal.x * (u.uWaveHeight *
          (Real.sin (position.x * 10 + u.uTime * u.uWaveSpeed) * 0.05 +
           Real.sin (position.y * u.uSmallWaveFrequency + u.uTime * u.uSmallWaveSpeed) * 0.03))
        y := position.y + normal.y * (u.uWaveHeight *
          (Real.sin (position.x * 10 + u.uTime * u.uWaveSpeed) * 0.05 +
           Real.sin (position.y * u.uSmallWaveFrequency + u.uTime * u.uSmallWaveSpeed) * 0.03))
        z := position.z + normal.z * (u.uWaveHeight *
          (Real.sin (position.x * 10 + u.uTime * u.uWaveSpeed) * 0.05 +
           Real.sin (position.y * u.uSmallWaveFrequency + u.uTime * u.uSmallWaveSpeed) * 0.03)) } := by
  simp only [Sun.newPosition, Sun.displacement, Sun.wave, Sun.smallWave, Demo.Vec3.mk.injEq]
  refine ⟨by ring_nf, by ring_nf, by ring_nf⟩

/--
C10: for every vertex position and uniform values, the sun vertex
displacement satisfies |displacement| <= 0.08 * |uWaveHeight|, because each
sine term is bounded by 0.05 and 0.03 respectively.
-/
theorem sun_displacement_bounded (u : Sun.Uniforms) (position : Demo.Vec3) :
    |Sun.displacement u position| ≤ 0.08 * |u.uWaveHeight| := by
  have habs : ∀ x : ℝ, |Real.sin x| ≤ 1 := fun x =>
    abs_le.mpr ⟨Real.neg_one_le_sin x, Real.sin_le_one x⟩
  unfold Sun.displacement Sun.wave Sun.smallWave
  rw [abs_mul]
  apply mul_le_mul_of_nonneg_right _ (abs_nonneg _)
  calc |Real.sin (position.x * 10.0 + u.uTime * u.uWaveSpeed) * 0.05 +
        Real.sin (position.y * u.uSmallWaveFrequency + u.uTime * u.uSmallWaveSpeed) * 0.03|
      ≤ |Real.sin (position.x * 10.0 + u.uTime * u.uWaveSpeed) * 0.05| +
        |Real.sin (position.y * u.uSmallWaveFrequency + u.uTime * u.uSmallWaveSpeed) * 0.03| :=
        abs_add _ _
    _ = |Real.sin (position.x * 10.0 + u.uTime * u.uWaveSpeed)| * 0.05 +
        |Real.sin (position.y * u.uSmallWaveFrequency + u.uTime * u.uSmallWaveSpeed)| * 0.03 := by
        rw [abs_mul, abs_mul, abs_of_nonneg (show (0:ℝ) ≤ 0.05 by norm_num),
          abs_of_nonneg (show (0:ℝ) ≤ 0.03 by norm_num)]
    _ ≤ 1 * 0.05 + 1 * 0.03 := by
        gcongr <;> exact habs _
    _ = 0.08 := by norm_num

/--
C8: for every UV coordinate the radial-gradient face leaves the vertex
position unchanged and outputs color (1 - d, d, 0) with
d = distance from (u, v) to (0.5, 0.5), so red + green = 1 and blue = 0.
-/
theorem radial_gradient_properties (u v : ℝ) (position : Demo.Vec3) :
    (Pyramid.color3 u v).r + (Pyramid.color3 u v).g = 1 ∧
    (Pyramid.color3 u v).b = 0 ∧
    (Pyramid.color3 u v).r = 1 - Pyramid.dist u v ∧
    (Pyramid.color3 u v).g = Pyramid.dist u v ∧
    Pyramid.newPosition3 position = position := by
  refine ⟨?_, ?_, ?_, ?_, rfl⟩ <;> simp [Pyramid.color3] <;> norm_num

/--
C6: after every resize event with dimensions (w, h) and device pixel
ratio dpr, the camera aspect equals w / h exactly and the renderer is set
to resolution (w, h) with pixel ratio min(dpr, 2), in both demos.
-/
theorem resize_invariants (w h dpr : ℝ) (s : Resize.ViewState) :
    (Resize.onResize w h dpr s).camera.aspect = w / h ∧
    (Resize.onResize w h dpr s).renderer.width = w ∧
    (Resize.onResize w h dpr s).renderer.height = h ∧
    (Resize.onResize w h dpr s).renderer.pixelRatio = min dpr 2 :=
  ⟨rfl, rfl, rfl, rfl⟩

/--
C9: after every number n of ticks of the pyramid render loop, the uTime
uniform of materials[0] equals the uTime uniform of materials[3]; both
start at 0 and each tick adds 0.01 to each, so both equal n * 0.01.
-/
theorem pyramid_time_uniforms_in_phase (n : ℕ) :
    (Pyramid.afterTicks n).uTime0 = (Pyramid.afterTicks n).uTime3 ∧
    (Pyramid.afterTicks n).uTime0 = n * 0.01 := by
  rw [Pyramid.afterTicks_eq]
  exact ⟨rfl, rfl⟩

/--
C4: after exactly 100 ticks of the pyramid render loop from the initial
state, pyramid.rotation.y equals exactly 1.0 and the uTime uniforms of
materials[0] and materials[3] each equal exactly 1.0 (in the real-number
model of the per-frame arithmetic).
-/
theorem pyramid_state_after_100_ticks :
    (Pyramid.afterTicks 100).rotationY = 1 ∧
    (Pyramid.afterTicks 100).uTime0 = 1 ∧
    (Pyramid.afterTicks 100).uTime3 = 1 := by
  rw [Pyramid.afterTicks_eq]
  norm_num

/--
C5 counterexample: in the pyramid demo tick, the rotation increment occurs
strictly before the camera-damping controls.update call, contradicting the
claim that camera damping is applied before the rotation increment in every
tick of both demos.
-/
theorem pyramid_rotation_before_damping :
    Loop.pyramidTickTrace.indexOf Loop.Event.rotationIncrement <
      Loop.pyramidTickTrace.indexOf Loop.Event.controlsUpdate := by decide

/--
C5 amended: each tick performs its steps in source order and re-schedules
itself last; in the sun demo the order is read elapsed time, update the
time uniform, apply camera damping, draw, re-schedule; in the pyramid demo
the order is update both time uniforms, apply the rotation increment, then
apply camera damping, draw, re-schedule — so in the pyramid demo camera
damping follows the rotation increment rather than preceding it.
-/
theorem tick_event_order :
    Loop.sunTickTrace.indexOf Loop.Event.readElapsedTime <
      Loop.sunTickTrace.indexOf Loop.Event.updateSunTimeUniform ∧
    Loop.sunTickTrace.indexOf Loop.Event.updateSunTimeUniform <
      Loop.sunTickTrace.indexOf Loop.Event.controlsUpdate ∧
    Loop.sunTickTrace.indexOf Loop.Event.controlsUpdate <
      Loop.sunTickTrace.indexOf Loop.Event.render ∧
    Loop.sunTickTrace.indexOf Loop.Event.render <
      Loop.sunTickTrace.indexOf Loop.Event.scheduleNextFrame ∧
    Loop.pyramidTickTrace.indexOf Loop.Event.updateUniform0 <
      Loop.pyramidTickTrace.indexOf Loop.Event.updateUniform3 ∧
    Loop.pyramidTickTrace.indexOf Loop.Event.updateUniform3 <
      Loop.pyramidTickTrace.indexOf Loop.Event.rotationIncrement ∧
    Loop.pyramidTickTrace.indexOf Loop.Event.rotationIncrement <
      Loop.pyramidTickTrace.indexOf Loop.Event.controlsUpdate ∧
    Loop.pyramidTickTrace.indexOf Loop.Event.controlsUpdate <
      Loop.pyramidTickTrace.indexOf Loop.Event.render ∧
    Loop.pyramidTickTrace.indexOf Loop.Event.render <
      Loop.pyramidTickTrace.indexOf Loop.Event.scheduleNextFrame := by decide

/--
C1 counterexample: with the default uniforms (uTime = 0), the sun vertex
displacement is nonzero at the unit-sphere surface point
(pi/20, 0, sqrt(1 - (pi/20)^2)) — the sine arguments at t = 0 are 10*x and
10*y, which are position-dependent and not 0, so the sphere does not
render undisplaced.
-/
theorem sun_initial_displacement_nonzero :
    Sun.displacement Sun.defaultUniforms
        { x := Real.pi / 20, y := 0, z := Real.sqrt (1 - (Real.pi / 20) ^ 2) } ≠ 0 ∧
    (Real.pi / 20) ^ 2 + (0 : ℝ) ^ 2 + Real.sqrt (1 - (Real.pi / 20) ^ 2) ^ 2 = 1 := by
  constructor
  · simp only [Sun.displacement, Sun.wave, Sun.smallWave, Sun.defaultUniforms]
    have h1 : Real.pi / 20 * 10.0 + 0 * 1 = Real.pi / 2 := by ring
    have h2 : (0 : ℝ) * 10 + 0 * 2 = 0 := by ring
    rw [h1, h2, Real.sin_pi_div_two, Real.sin_zero]
    norm_num
  · have hle : (Real.pi / 20) ^ 2 ≤ 1 := by
      nlinarith [Real.pi_le_four, Real.pi_pos]
    rw [Real.sq_sqrt (by linarith)]
    ring

/--
C1 amended: with the default uniforms at t = 0, the sun vertex displacement
equals 0.15 * (sin(10 x) * 0.05 + sin(10 y) * 0.03) at every vertex
position (x, y, z); the time contribution to each sine argument vanishes at
t = 0 but the position contribution does not, so the displacement is zero
only at positions where this expression happens to vanish, not everywhere.
-/
theorem sun_initial_displacement_formula (position : Demo.Vec3) :
    Sun.displacement Sun.defaultUniforms position =
      0.15 * (Real.sin (position.x * 10) * 0.05 + Real.sin (position.y * 10) * 0.03) := by
  simp only [Sun.displacement, Sun.wave, Sun.smallWave, Sun.defaultUniforms]
  ring_nf

/--
C2 counterexample: the shift (u, v) -> (u + 0.1, v) at (0, 0) crosses a
cell boundary (the floor of u * 10 changes), yet the checkerboard parity
value is not invariant under it: checker(0.1, 0) = 1 while
checker(0, 0) = 0.
-/
theorem checker_not_invariant_at_origin :
    ⌊((0 : ℝ) + 0.1) * 10.0⌋ ≠ ⌊(0 : ℝ) * 10.0⌋ ∧
    Pyramid.checker (0 + 0.1) 0 ≠ Pyramid.checker 0 0 := by
  have h1 : ((0 : ℝ) + 0.1) * 10.0 = 1 := by norm_num
  have h0 : (0 : ℝ) * 10.0 = 0 := by norm_num
  have hf1 : ⌊((0 : ℝ) + 0.1) * 10.0⌋ = 1 := by rw [h1]; exact Int.floor_one
  have hf0 : ⌊(0 : ℝ) * 10.0⌋ = 0 := by rw [h0]; exact Int.floor_zero
  constructor
  · rw [hf1, hf0]
    decide
  · rw [Pyramid.checker_eq, Pyramid.checker_eq, hf1, hf0]
    norm_num

/--
C2 amended: for all UV coordinates (u, v), the checkerboard parity value
mod(floor(10u) + floor(10v), 2) is well-defined and equals exactly 0 or 1,
and the shift (u, v) -> (u + 0.1, v) always crosses one cell boundary and
flips the parity: checker(u + 0.1, v) = 1 - checker(u, v), rather than
leaving it invariant.
-/
theorem checker_values_and_flip (u v : ℝ) :
    (Pyramid.checker u v = 0 ∨ Pyramid.checker u v = 1) ∧
    Pyramid.checker (u + 0.1) v = 1 - Pyramid.checker u v := by
  have hmod : ∀ m : ℤ, m % 2 = 0 ∨ m % 2 = 1 := fun m => by omega
  constructor
  · rw [Pyramid.checker_eq]
    rcases hmod (⌊u * 10.0⌋ + ⌊v * 10.0⌋) with h | h
    · left
      rw [h]
      norm_num
    · right
      rw [h]
      norm_num
  · rw [Pyramid.checker_eq, Pyramid.checker_eq]
    have harg : (u + 0.1) * 10.0 = u * 10.0 + 1 := by ring
    have hfl : ⌊(u + 0.1) * 10.0⌋ = ⌊u * 10.0⌋ + 1 := by
      rw [harg, Int.floor_add_one]
    rw [hfl]
    rcases hmod (⌊u * 10.0⌋ + ⌊v * 10.0⌋) with h | h
    · have h1 : (⌊u * 10.0⌋ + 1 + ⌊v * 10.0⌋) % 2 = 1 := by omega
      rw [h1, h]
      norm_num
    · have h1 : (⌊u * 10.0⌋ + 1 + ⌊v * 10.0⌋) % 2 = 0 := by omega
      rw [h1, h]
      norm_num

/--
C7: for every fixed vertex position and uniform values with
uWaveSpeed != 0 and uSmallWaveSpeed != 0, the sun displacement is a
continuous function of time, its first additive term is periodic in t with
period 2*pi/uWaveSpeed, and its second additive term is periodic in t with
period 2*pi/uSmallWaveSpeed.
-/
theorem sun_displacement_continuous_periodic (u : Sun.Uniforms) (position : Demo.Vec3)
    (hw : u.uWaveSpeed ≠ 0) (hs : u.uSmallWaveSpeed ≠ 0) :
    Continuous (fun t : ℝ => Sun.displacement { u with uTime := t } position) ∧
    Function.Periodic (fun t : ℝ => Sun.wave { u with uTime := t } position)
      (2 * Real.pi / u.uWaveSpeed) ∧
    Function.Periodic (fun t : ℝ => Sun.smallWave { u with uTime := t } position)
      (2 * Real.pi / u.uSmallWaveSpeed) := by
  refine ⟨?_, ?_, ?_⟩
  · simp only [Sun.displacement, Sun.wave, Sun.smallWave]
    fun_prop
  · intro t
    simp only [Sun.wave]
    have harg : position.x * 10.0 + (t + 2 * Real.pi / u.uWaveSpeed) * u.uWaveSpeed
        = position.x * 10.0 + t * u.uWaveSpeed + 2 * Real.pi := by
      rw [add_mul, div_mul_cancel₀ _ hw]
      ring
    rw [harg, Real.sin_add_two_pi]
  · intro t
    simp only [Sun.smallWave]
    have harg : position.y * u.uSmallWaveFrequency +
          (t + 2 * Real.pi / u.uSmallWaveSpeed) * u.uSmallWaveSpeed
        = position.y * u.uSmallWaveFrequency + t * u.uSmallWaveSpeed + 2 * Real.pi := by
      rw [add_mul, div_mul_cancel₀ _ hs]
      ring
    rw [harg, Real.sin_add_two_pi]

/--
C7 witness: the continuity and periodicity statement instantiated at the
default uniforms (uWaveSpeed = 1, uSmallWaveSpeed = 2, both nonzero) and
the vertex position (1, 1, 1).
-/
theorem sun_displacement_continuous_periodic_witness :
    (Sun.defaultUniforms.uWaveSpeed ≠ 0 ∧ Sun.defaultUniforms.uSmallWaveSpeed ≠ 0) ∧
    (Continuous (fun t : ℝ =>
        Sun.displacement { Sun.defaultUniforms with uTime := t } { x := 1, y := 1, z := 1 }) ∧
     Function.Periodic (fun t : ℝ =>
        Sun.wave { Sun.defaultUniforms with uTime := t } { x := 1, y := 1, z := 1 })
       (2 * Real.pi / Sun.defaultUniforms.uWaveSpeed) ∧
     Function.Periodic (fun t : ℝ =>
        Sun.smallWave { Sun.defaultUniforms with uTime := t } { x := 1, y := 1, z := 1 })
       (2 * Real.pi / Sun.defaultUniforms.uSmallWaveSpeed)) :=
  ⟨⟨by norm_num [Sun.defaultUniforms], by norm_num [Sun.defaultUniforms]⟩,
   sun_displacement_continuous_periodic Sun.defaultUniforms { x := 1, y := 1, z := 1 }
     (by norm_num [Sun.defaultUniforms]) (by norm_num [Sun.defaultUniforms])⟩
